import Mathlib

/-!
Shallow embedding of `check_prayer_times.py` (ms2176/go-pray).

The script reads configuration from the environment, fetches the day's
prayer times from the Aladhan API, compares the current wall-clock time
against each prayer time, and on the first match sends one push
notification via ntfy, then returns.  External effects (the HTTP GET,
the HTTP POST, the environment) are modelled as explicit inputs; the
orchestrator's observable behaviour (exit status, notifications sent,
or an unhandled parse error) is the output.
-/

set_option autoImplicit false

namespace PrayerTimes

/-- Configuration block: module-level constants read via `os.getenv`
with the script's literal defaults. -/
structure Config where
  ntfy_topic : String
  latitude : String
  longitude : String
  calculation_method : String
deriving DecidableEq, Repr

/-- `os.getenv(name, default)` for the four configured variables
(lines 14-17 of the script). -/
def loadConfig (getenv : String → Option String) : Config :=
  { ntfy_topic := ((getenv ("NTFY_TOPIC")).getD ("your-unique-topic-name"))
  , latitude := ((getenv ("LATITUDE")).getD ("25.3463"))
  , longitude := ((getenv ("LONGITUDE")).getD ("55.4209"))
  , calculation_method := ((getenv ("CALCULATION_METHOD")).getD ("4")) }

/-- Configuration with every environment variable unset: the defaults. -/
def defaultConfig : Config := loadConfig (fun _ => none)

/-- `NOTIFICATION_WINDOW = 5` (line 20): tolerance in minutes. -/
def NOTIFICATION_WINDOW : Nat := 5

/-- The fixed timings endpoint (line 30). -/
def timingsUrl : String := "http://api.aladhan.com/v1/timings"

/-- Query parameters of the GET request (lines 31-35). -/
def timingsParams (cfg : Config) : List (String × String) :=
  [("latitude", cfg.latitude), ("longitude", cfg.longitude), ("method", cfg.calculation_method)]

/-- The push endpoint, parameterized by topic (line 64). -/
def ntfyUrl (cfg : Config) : String := "https://ntfy.sh/" ++ cfg.ntfy_topic

/-- The `timings` object of the API response body.  Each of the five
prayer keys the script reads may be present or missing; a missing key
raises `KeyError` in Python, which the script's `except` catches. -/
structure Timings where
  fajr : Option String
  dhuhr : Option String
  asr : Option String
  maghrib : Option String
  isha : Option String
deriving DecidableEq, Repr

/-- The decoded JSON body: the `code` field (`data['code']`, missing =
`KeyError`) and the nested `data.timings` object (missing at either
level = `KeyError`). -/
structure ApiBody where
  code : Option Int
  timings : Option Timings
deriving DecidableEq, Repr

/-- Environment of the fetch: either `requests.get` raises (timeout,
connection error), or it yields an HTTP status together with a body
(`none` = the body is not valid JSON, so `response.json()` raises). -/
inductive FetchEnv where
  | transportError : FetchEnv
  | response : Nat → Option ApiBody → FetchEnv
deriving DecidableEq, Repr

/-- `response.raise_for_status()` raises exactly for 4xx and 5xx. -/
def raisesForStatus (status : Nat) : Bool :=
  decide (400 ≤ status ∧ status < 600)

/-- `get_prayer_times` (lines 22-59).  Every exception raised inside the
`try` is caught by `except Exception`, which prints and returns `None`;
a body `code` other than 200 prints and returns `None` explicitly.  On
success the five prayers are extracted into a dict in insertion order
Fajr, Dhuhr, Asr, Maghrib, Isha, modelled as an association list. -/
def get_prayer_times : FetchEnv → Option (List (String × String))
  | .transportError => none
  | .response status body =>
    if raisesForStatus status then none
    else
      match body with
      | none => none
      | some data =>
        match data.code with
        | none => none
        | some c =>
          if c = 200 then
            match data.timings with
            | none => none
            | some t =>
              match t.fajr, t.dhuhr, t.asr, t.maghrib, t.isha with
              | some f, some d, some a, some g, some i =>
                some [("Fajr", f), ("Dhuhr", d), ("Asr", a), ("Maghrib", g), ("Isha", i)]
              | _, _, _, _, _ => none
          else none

/-- Environment of the send: either `requests.post` raises, or it
yields an HTTP status (checked by `raise_for_status`). -/
inductive HttpPostResult where
  | transportError : HttpPostResult
  | status : Nat → HttpPostResult
deriving DecidableEq, Repr

/-- The JSON body POSTed to ntfy (lines 67-73). -/
structure NtfyBody where
  topic : String
  title : String
  message : String
  priority : Nat
  tags : List String
deriving DecidableEq, Repr

/-- `send_notification` (lines 61-83): builds the JSON body from the
prayer name and time, POSTs it, and returns `True` on success and
`False` when the POST raises or the status is 4xx/5xx (caught by the
`except`, which prints the error).  The result pairs the returned
boolean with the body that was posted. -/
def send_notification (topic : String) (senv : HttpPostResult) (prayer_name prayer_time : String) : Bool × NtfyBody :=
  let data : NtfyBody :=
    { topic := topic
    , title := "🕌 " ++ prayer_name ++ " Time"
    , message := "It\x27s time for " ++ prayer_name ++ " prayer (" ++ prayer_time ++ ")"
    , priority := 5
    , tags := ["mosque", "pray"] }
  match senv with
  | .transportError => (false, data)
  | .status code => if raisesForStatus code then (false, data) else (true, data)

/-- Python `str.split(':')`: split a character list on every colon;
the empty string splits to one empty field. -/
def splitCols : List Char → List (List Char)
  | [] => [[]]
  | c :: rest =>
    let r := splitCols rest
    if c = ':' then [] :: r
    else
      match r with
      | [] => [[c]]
      | g :: gs => (c :: g) :: gs

/-- Value of a digit string, most significant first. -/
def digitsVal (ds : List Char) : Int :=
  ds.foldl (fun a c => a * 10 + ((c.toNat : Int) - 48)) 0

/-- Python `int(s)` on a string: strips surrounding whitespace, accepts
an optional sign followed by a nonempty run of decimal digits, and
raises `ValueError` otherwise (modelled as `none`).  Underscore digit
separators are not modelled. -/
def pyInt (cs : List Char) : Option Int :=
  let t := ((cs.dropWhile Char.isWhitespace).reverse.dropWhile Char.isWhitespace).reverse
  match t with
  | '-' :: ds =>
    if ds ≠ [] ∧ ds.all Char.isDigit then some (-(digitsVal ds)) else none
  | '+' :: ds =>
    if ds ≠ [] ∧ ds.all Char.isDigit then some (digitsVal ds) else none
  | ds =>
    if ds ≠ [] ∧ ds.all Char.isDigit then some (digitsVal ds) else none

/-- `prayer_hour, prayer_minute = map(int, prayer_time.split(':'))`
(line 106): succeeds when the string splits into exactly two fields
and both parse as Python ints; otherwise `ValueError` propagates. -/
def parseHHMM (s : String) : Option (Int × Int) :=
  match splitCols s.data with
  | [hs, ms] =>
    match pyInt hs, pyInt ms with
    | some h, some m => some (h, m)
    | _, _ => none
  | _ => none

/-- The match condition of line 109, as a predicate on a prayer time
string: the parse succeeds, the current hour equals the prayer hour,
and the minutes differ by at most `NOTIFICATION_WINDOW`. -/
def timeMatches (h m : Nat) (t : String) : Bool :=
  match parseHHMM t with
  | none => false
  | some (ph, pm) =>
    decide ((h : Int) = ph ∧ ((m : Int) - pm).natAbs ≤ NOTIFICATION_WINDOW)

/-- A notification that was sent: the prayer's name and time, the JSON
body that was posted, and `send_notification`'s boolean result. -/
structure SendRecord where
  prayer : String
  time : String
  body : NtfyBody
  ok : Bool
deriving DecidableEq, Repr

/-- Observable outcome of a run: `exited code sent` for a run that
reaches `sys.exit` or falls off the end of `check_and_notify`
(process status 0), or `parseFailure t` when line 106 raises an
unhandled `ValueError` on the malformed time string `t`. -/
inductive RunOutcome where
  | exited : Nat → List SendRecord → RunOutcome
  | parseFailure : String → RunOutcome
deriving DecidableEq, Repr

/-- The notifications a run sent (none when it crashed parsing). -/
def RunOutcome.sent : RunOutcome → List SendRecord
  | .exited _ s => s
  | .parseFailure _ => []

/-- The process exit status; `none` for an unhandled exception. -/
def RunOutcome.exitCode : RunOutcome → Option Nat
  | .exited c _ => some c
  | .parseFailure _ => none

/-- The `for prayer_name, prayer_time in prayers.items()` loop of
lines 104-116: parse each time (raising on malformed input), test the
window condition, and on the first match send one notification and
return; if no prayer matches, fall through to normal exit 0. -/
def checkPrayers (topic : String) (h m : Nat) (senv : HttpPostResult) : List (String × String) → RunOutcome
  | [] => .exited 0 []
  | (prayer_name, prayer_time) :: rest =>
    match parseHHMM prayer_time with
    | none => .parseFailure prayer_time
    | some (ph, pm) =>
      if (h : Int) = ph ∧ ((m : Int) - pm).natAbs ≤ NOTIFICATION_WINDOW then
        .exited 0 [⟨prayer_name, prayer_time,
          (send_notification topic senv prayer_name prayer_time).2,
          (send_notification topic senv prayer_name prayer_time).1⟩]
      else
        checkPrayers topic h m senv rest

/-- `check_and_notify` (lines 85-116): capture the current hour and
minute, fetch the schedule, `sys.exit(1)` when the fetch result is
falsy (`None`, or an empty dict), otherwise scan the prayers in
order. -/
def check_and_notify (cfg : Config) (nowHour nowMinute : Nat) (fenv : FetchEnv) (senv : HttpPostResult) : RunOutcome :=
  match get_prayer_times fenv with
  | none => .exited 1 []
  | some prayers =>
    if prayers.isEmpty then .exited 1 []
    else checkPrayers cfg.ntfy_topic nowHour nowMinute senv prayers

/-- Timings of a typical day, used in examples. -/
def exampleTimings : Timings :=
  { fajr := some ("05:00")
  , dhuhr := some ("12:15")
  , asr := some ("15:30")
  , maghrib := some ("18:45")
  , isha := some ("20:00") }

/-- A concrete successful fetch environment used in examples: the five
timings of a typical day. -/
def exampleEnv : FetchEnv :=
  .response 200 (some { code := some 200, timings := some exampleTimings })

/-- The schedule `get_prayer_times` extracts from `exampleEnv`. -/
def exampleSchedule : List (String × String) :=
  [("Fajr", "05:00"), ("Dhuhr", "12:15"), ("Asr", "15:30"), ("Maghrib", "18:45"), ("Isha", "20:00")]

/-- Timings whose Isha is `23:58`, for the day-boundary example. -/
def lateIshaTimings : Timings :=
  { fajr := some ("05:00")
  , dhuhr := some ("12:15")
  , asr := some ("15:30")
  , maghrib := some ("18:45")
  , isha := some ("23:58") }

/-- A fetch environment whose Isha time is `23:58`: at 00:02 the hour
component differs from 23. -/
def lateIshaEnv : FetchEnv :=
  .response 200 (some { code := some 200, timings := some lateIshaTimings })

/-- Timings whose Fajr entry is malformed. -/
def malformedTimings : Timings :=
  { fajr := some ("not-a-time")
  , dhuhr := some ("12:15")
  , asr := some ("15:30")
  , maghrib := some ("18:45")
  , isha := some ("20:00") }

/-- A fetch environment whose Fajr time is malformed. -/
def malformedEnv : FetchEnv :=
  .response 200 (some { code := some 200, timings := some malformedTimings })

/-! ### Helper lemmas -/

/-- Loop equation: empty schedule falls through to a normal exit. -/
theorem checkPrayers_nil (topic : String) (h m : Nat) (senv : HttpPostResult) :
    checkPrayers topic h m senv [] = .exited 0 [] := rfl

/-- Loop equation: a malformed head time raises out of the run. -/
theorem checkPrayers_cons_none (topic : String) (h m : Nat) (senv : HttpPostResult)
    (prayer_name prayer_time : String) (rest : List (String × String))
    (hparse : parseHHMM prayer_time = none) :
    checkPrayers topic h m senv ((prayer_name, prayer_time) :: rest) =
      .parseFailure prayer_time := by
  unfold checkPrayers
  rw [hparse]

/-- Loop equation: a well-formed head time is tested against the
window; on a match one notification goes out and the loop returns,
otherwise the rest of the schedule is scanned. -/
theorem checkPrayers_cons_some (topic : String) (h m : Nat) (senv : HttpPostResult)
    (prayer_name prayer_time : String) (rest : List (String × String)) (ph pm : Int)
    (hparse : parseHHMM prayer_time = some (ph, pm)) :
    checkPrayers topic h m senv ((prayer_name, prayer_time) :: rest) =
      if (h : Int) = ph ∧ ((m : Int) - pm).natAbs ≤ NOTIFICATION_WINDOW then
        .exited 0 [⟨prayer_name, prayer_time,
          (send_notification topic senv prayer_name prayer_time).2,
          (send_notification topic senv prayer_name prayer_time).1⟩]
      else checkPrayers topic h m senv rest := by
  conv_lhs => unfold checkPrayers
  rw [hparse]

/-- Any schedule that `get_prayer_times` returns is the five-entry
association list Fajr, Dhuhr, Asr, Maghrib, Isha, in that order. -/
theorem get_prayer_times_shape (fenv : FetchEnv) (ps : List (String × String))
    (hf : get_prayer_times fenv = some ps) :
    ∃ f d a g i, ps = [("Fajr", f), ("Dhuhr", d), ("Asr", a), ("Maghrib", g), ("Isha", i)] := by
  cases fenv with
  | transportError => simp [get_prayer_times] at hf
  | response status body =>
    by_cases hs : raisesForStatus status = true
    · simp [get_prayer_times, hs] at hf
    · cases body with
      | none => simp [get_prayer_times, hs] at hf
      | some data =>
        cases hcode : data.code with
        | none => simp [get_prayer_times, hs, hcode] at hf
        | some c =>
          by_cases hc200 : c = 200
          · subst hc200
            cases ht : data.timings with
            | none => simp [get_prayer_times, hs, hcode, ht] at hf
            | some t =>
              cases hfa : t.fajr with
              | none => simp [get_prayer_times, hs, hcode, ht, hfa] at hf
              | some f =>
                cases hdu : t.dhuhr with
                | none => simp [get_prayer_times, hs, hcode, ht, hfa, hdu] at hf
                | some d =>
                  cases has : t.asr with
                  | none => simp [get_prayer_times, hs, hcode, ht, hfa, hdu, has] at hf
                  | some a =>
                    cases hma : t.maghrib with
                    | none => simp [get_prayer_times, hs, hcode, ht, hfa, hdu, has, hma] at hf
                    | some g =>
                      cases his : t.isha with
                      | none => simp [get_prayer_times, hs, hcode, ht, hfa, hdu, has, hma, his] at hf
                      | some i =>
                        refine ⟨f, d, a, g, i, ?_⟩
                        simp [get_prayer_times, hs, hcode, ht, hfa, hdu, has, hma, his] at hf
                        exact hf.symm
          · simp [get_prayer_times, hs, hcode, hc200] at hf

/-- A returned schedule is never empty (it always has five entries). -/
theorem get_prayer_times_ne_nil (fenv : FetchEnv) (ps : List (String × String))
    (hf : get_prayer_times fenv = some ps) : ps ≠ [] := by
  obtain ⟨f, d, a, g, i, rfl⟩ := get_prayer_times_shape fenv ps hf
  simp

/-- When the fetch succeeds with a (necessarily nonempty) schedule, the
orchestrator runs the scanning loop on it. -/
theorem check_and_notify_eq_checkPrayers (cfg : Config) (h m : Nat) (fenv : FetchEnv)
    (senv : HttpPostResult) (ps : List (String × String))
    (hf : get_prayer_times fenv = some ps) :
    check_and_notify cfg h m fenv senv = checkPrayers cfg.ntfy_topic h m senv ps := by
  unfold check_and_notify
  rw [hf]
  simp only [List.isEmpty_iff]
  rw [if_neg (get_prayer_times_ne_nil fenv ps hf)]

/-- On a schedule whose entries all parse, the loop's outcome is
determined by `List.find?` with the window predicate: no match gives a
normal exit with nothing sent, and the first match gives a normal exit
with exactly that prayer notified. -/
theorem checkPrayers_eq_find (topic : String) (h m : Nat) (senv : HttpPostResult)
    (ps : List (String × String)) (wf : ∀ p ∈ ps, (parseHHMM p.2).isSome) :
    checkPrayers topic h m senv ps =
      match ps.find? (fun p => timeMatches h m p.2) with
      | none => .exited 0 []
      | some p => .exited 0 [⟨p.1, p.2,
          (send_notification topic senv p.1 p.2).2,
          (send_notification topic senv p.1 p.2).1⟩] := by
  induction ps with
  | nil => rfl
  | cons p rest ih =>
    obtain ⟨prayer_name, prayer_time⟩ := p
    have hp : (parseHHMM prayer_time).isSome := wf _ (List.mem_cons_self _ _)
    obtain ⟨⟨ph, pm⟩, hparse⟩ := Option.isSome_iff_exists.mp hp
    have hmatch : timeMatches h m prayer_time =
        decide ((h : Int) = ph ∧ ((m : Int) - pm).natAbs ≤ NOTIFICATION_WINDOW) := by
      unfold timeMatches
      rw [hparse]
    by_cases hc : (h : Int) = ph ∧ ((m : Int) - pm).natAbs ≤ NOTIFICATION_WINDOW
    · rw [List.find?_cons_of_pos _ (by rw [hmatch]; exact decide_eq_true hc)]
      unfold checkPrayers
      rw [hparse]
      simp only [if_pos hc]
    · rw [List.find?_cons_of_neg _ (by rw [hmatch]; exact fun hb => hc (of_decide_eq_true hb))]
      unfold checkPrayers
      rw [hparse]
      simp only [if_neg hc]
      exact ih (fun q hq => wf q (List.mem_cons_of_mem _ hq))

/-- Every notification the loop sends names a prayer of its input
schedule. -/
theorem checkPrayers_sent_prayer_mem (topic : String) (h m : Nat) (senv : HttpPostResult)
    (ps : List (String × String)) (r : SendRecord)
    (hr : r ∈ (checkPrayers topic h m senv ps).sent) : r.prayer ∈ ps.map Prod.fst := by
  induction ps with
  | nil => simp [checkPrayers, RunOutcome.sent] at hr
  | cons p rest ih =>
    obtain ⟨prayer_name, prayer_time⟩ := p
    cases hparse : parseHHMM prayer_time with
    | none =>
      rw [checkPrayers_cons_none topic h m senv prayer_name prayer_time rest hparse] at hr
      simp [RunOutcome.sent] at hr
    | some x =>
      obtain ⟨ph, pm⟩ := x
      rw [checkPrayers_cons_some topic h m senv prayer_name prayer_time rest ph pm hparse] at hr
      by_cases hc : (h : Int) = ph ∧ ((m : Int) - pm).natAbs ≤ NOTIFICATION_WINDOW
      · rw [if_pos hc] at hr
        simp only [RunOutcome.sent, List.mem_singleton] at hr
        subst hr
        simp
      · rw [if_neg hc] at hr
        exact List.mem_cons_of_mem _ (ih hr)

/-- Every notification the loop sends carries the body and the result
of `send_notification` on its own prayer name and time. -/
theorem checkPrayers_sent_shape (topic : String) (h m : Nat) (senv : HttpPostResult)
    (ps : List (String × String)) (r : SendRecord)
    (hr : r ∈ (checkPrayers topic h m senv ps).sent) :
    r.body = (send_notification topic senv r.prayer r.time).2 ∧
    r.ok = (send_notification topic senv r.prayer r.time).1 := by
  induction ps with
  | nil => simp [checkPrayers_nil, RunOutcome.sent] at hr
  | cons p rest ih =>
    obtain ⟨prayer_name, prayer_time⟩ := p
    cases hparse : parseHHMM prayer_time with
    | none =>
      rw [checkPrayers_cons_none topic h m senv prayer_name prayer_time rest hparse] at hr
      simp [RunOutcome.sent] at hr
    | some x =>
      obtain ⟨ph, pm⟩ := x
      rw [checkPrayers_cons_some topic h m senv prayer_name prayer_time rest ph pm hparse] at hr
      by_cases hc : (h : Int) = ph ∧ ((m : Int) - pm).natAbs ≤ NOTIFICATION_WINDOW
      · rw [if_pos hc] at hr
        simp only [RunOutcome.sent, List.mem_singleton] at hr
        subst hr
        exact ⟨rfl, rfl⟩
      · rw [if_neg hc] at hr
        exact ih hr

/-- The five fields of a fetched schedule, when one is missing from
the timings object, make the whole extraction fail. -/
theorem gpt_timing_field_missing (status : Nat) (bd : ApiBody) (t : Timings)
    (hcode : bd.code = some 200) (ht : bd.timings = some t)
    (hmiss : t.fajr = none ∨ t.dhuhr = none ∨ t.asr = none ∨ t.maghrib = none ∨ t.isha = none) :
    get_prayer_times (.response status (some bd)) = none := by
  by_cases hs : raisesForStatus status = true
  · simp [get_prayer_times, hs]
  · rcases hmiss with hx | hx | hx | hx | hx
    · simp [get_prayer_times, hs, hcode, ht, hx]
    · cases hfa : t.fajr <;>
        simp [get_prayer_times, hs, hcode, ht, hfa, hx]
    · cases hfa : t.fajr <;> cases hdu : t.dhuhr <;>
        simp [get_prayer_times, hs, hcode, ht, hfa, hdu, hx]
    · cases hfa : t.fajr <;> cases hdu : t.dhuhr <;> cases has : t.asr <;>
        simp [get_prayer_times, hs, hcode, ht, hfa, hdu, has, hx]
    · cases hfa : t.fajr <;> cases hdu : t.dhuhr <;> cases has : t.asr <;> cases hma : t.maghrib <;>
        simp [get_prayer_times, hs, hcode, ht, hfa, hdu, has, hma, hx]

/-- A body status code other than 200 makes the fetch return `None`,
whatever the HTTP status was. -/
theorem gpt_code_ne_200 (status : Nat) (bd : ApiBody) (c : Int)
    (hcode : bd.code = some c) (hne : c ≠ 200) :
    get_prayer_times (.response status (some bd)) = none := by
  by_cases hs : raisesForStatus status = true
  · simp [get_prayer_times, hs]
  · simp [get_prayer_times, hs, hcode, hne]

/-- `send_notification` reports failure exactly when the POST raises or
returns a 4xx/5xx status. -/
theorem send_notification_fails (topic : String) (senv : HttpPostResult)
    (prayer_name prayer_time : String)
    (hfail : senv = .transportError ∨ ∃ c, senv = .status c ∧ 400 ≤ c ∧ c < 600) :
    (send_notification topic senv prayer_name prayer_time).1 = false := by
  rcases hfail with rfl | ⟨c, rfl, hc⟩
  · rfl
  · unfold send_notification
    simp only
    rw [if_pos (by unfold raisesForStatus; exact decide_eq_true hc)]

/-! ### Claim theorems -/

/-- Claim C1: for every fetched schedule of five well-formed HH:MM
entries and every current wall-clock time, `check_and_notify` sends at
most one notification per invocation; moreover what it sends is
exactly determined by the first prayer in the fixed enumeration order
whose time matches (`List.find?` over the schedule), so a first match
short-circuits the rest. -/
theorem at_most_one_send_per_run (cfg : Config) (h m : Nat) (fenv : FetchEnv)
    (senv : HttpPostResult) (ps : List (String × String))
    (hf : get_prayer_times fenv = some ps)
    (wf : ∀ p ∈ ps, (parseHHMM p.2).isSome) :
    (check_and_notify cfg h m fenv senv).sent.length ≤ 1 ∧
    (check_and_notify cfg h m fenv senv).sent =
      (match ps.find? (fun p => timeMatches h m p.2) with
       | none => []
       | some p => [⟨p.1, p.2,
           (send_notification cfg.ntfy_topic senv p.1 p.2).2,
           (send_notification cfg.ntfy_topic senv p.1 p.2).1⟩]) := by
  rw [check_and_notify_eq_checkPrayers cfg h m fenv senv ps hf,
      checkPrayers_eq_find cfg.ntfy_topic h m senv ps wf]
  cases hfind : ps.find? (fun p => timeMatches h m p.2) with
  | none => simp [RunOutcome.sent]
  | some p => simp [RunOutcome.sent]

/-- Witness for C1 at the example schedule and time 05:03. -/
theorem at_most_one_send_per_run_witness :
    (check_and_notify defaultConfig 5 3 exampleEnv (.status 200)).sent.length ≤ 1 ∧
    (check_and_notify defaultConfig 5 3 exampleEnv (.status 200)).sent =
      (match exampleSchedule.find? (fun p => timeMatches 5 3 p.2) with
       | none => []
       | some p => [⟨p.1, p.2,
           (send_notification defaultConfig.ntfy_topic (.status 200) p.1 p.2).2,
           (send_notification defaultConfig.ntfy_topic (.status 200) p.1 p.2).1⟩]) :=
  at_most_one_send_per_run defaultConfig 5 3 exampleEnv (.status 200) exampleSchedule rfl (by decide)

/-- Claim C2: a prayer matches iff the current hour equals the parsed
prayer hour and the minutes differ by at most the window 5; at 05:03
with Fajr 05:00 the sender is invoked with Fajr and its time, and at
05:10 with Fajr 05:00 no match occurs. -/
theorem match_condition_iff :
    (∀ (h m : Nat) (t : String) (ph pm : Int), parseHHMM t = some (ph, pm) →
      (timeMatches h m t = true ↔
        ((h : Int) = ph ∧ ((m : Int) - pm).natAbs ≤ NOTIFICATION_WINDOW))) ∧
    timeMatches 5 3 ("05:00") = true ∧
    timeMatches 5 10 ("05:00") = false ∧
    (∀ (cfg : Config) (senv : HttpPostResult),
      (check_and_notify cfg 5 3 exampleEnv senv).sent.map (fun r => (r.prayer, r.time)) =
        [("Fajr", "05:00")]) := by
  refine ⟨?_, by decide, by decide, ?_⟩
  · intro h m t ph pm hparse
    unfold timeMatches
    rw [hparse]
    exact decide_eq_true_iff
  · intro cfg senv
    rfl

/-- Witness for C2 at current time 05:03 and prayer time 05:00. -/
theorem match_condition_iff_witness :
    parseHHMM ("05:00") = some (5, 0) ∧
    (timeMatches 5 3 ("05:00") = true ↔
      (((5 : Nat) : Int) = 5 ∧ (((3 : Nat) : Int) - 0).natAbs ≤ NOTIFICATION_WINDOW)) :=
  ⟨by decide, match_condition_iff.1 5 3 ("05:00") 5 0 (by decide)⟩

/-- Claim C3: on every failure mode of the fetch — transport error,
4xx/5xx HTTP status, unparseable JSON body, missing `code` field, body
status code other than 200, missing timings object, or a missing
prayer key — `get_prayer_times` returns `none`; being a total function
into `Option`, no exception escapes it, and it is consulted once per
run with no retry. -/
theorem fetch_failures_return_none :
    (get_prayer_times .transportError = none) ∧
    (∀ (status : Nat) (body : Option ApiBody), 400 ≤ status → status < 600 →
      get_prayer_times (.response status body) = none) ∧
    (∀ status : Nat, get_prayer_times (.response status none) = none) ∧
    (∀ (status : Nat) (bd : ApiBody), bd.code = none →
      get_prayer_times (.response status (some bd)) = none) ∧
    (∀ (status : Nat) (bd : ApiBody) (c : Int), bd.code = some c → c ≠ 200 →
      get_prayer_times (.response status (some bd)) = none) ∧
    (∀ (status : Nat) (bd : ApiBody), bd.code = some 200 → bd.timings = none →
      get_prayer_times (.response status (some bd)) = none) ∧
    (∀ (status : Nat) (bd : ApiBody) (t : Timings), bd.code = some 200 → bd.timings = some t →
      (t.fajr = none ∨ t.dhuhr = none ∨ t.asr = none ∨ t.maghrib = none ∨ t.isha = none) →
      get_prayer_times (.response status (some bd)) = none) := by
  refine ⟨rfl, ?_, ?_, ?_, ?_, ?_, ?_⟩
  · intro status body h1 h2
    simp [get_prayer_times, raisesForStatus, h1, h2]
  · intro status
    by_cases hs : raisesForStatus status = true <;> simp [get_prayer_times, hs]
  · intro status bd hcode
    by_cases hs : raisesForStatus status = true <;> simp [get_prayer_times, hs, hcode]
  · intro status bd c hcode hne
    exact gpt_code_ne_200 status bd c hcode hne
  · intro status bd hcode ht
    by_cases hs : raisesForStatus status = true <;> simp [get_prayer_times, hs, hcode, ht]
  · intro status bd t hcode ht hmiss
    exact gpt_timing_field_missing status bd t hcode ht hmiss

/-- Witness for C3: a 404 response and a body code of 500 both yield
an absent result. -/
theorem fetch_failures_return_none_witness :
    get_prayer_times (.response 404 (some { code := some 200, timings := some exampleTimings })) = none ∧
    get_prayer_times (.response 200 (some { code := some 500, timings := some exampleTimings })) = none :=
  ⟨fetch_failures_return_none.2.1 404 (some { code := some 200, timings := some exampleTimings })
      (by decide) (by decide),
   fetch_failures_return_none.2.2.2.2.1 200 { code := some 500, timings := some exampleTimings } 500
      rfl (by decide)⟩

/-- Claim C4: whenever the fetch yields an absent result — in
particular when the body status code field is not 200 — the run exits
with status 1 and sends zero notifications. -/
theorem fetch_failure_exits_one (cfg : Config) (h m : Nat) (senv : HttpPostResult) :
    (∀ fenv : FetchEnv, get_prayer_times fenv = none →
      check_and_notify cfg h m fenv senv = .exited 1 []) ∧
    (∀ (status : Nat) (bd : ApiBody) (c : Int), bd.code = some c → c ≠ 200 →
      check_and_notify cfg h m (.response status (some bd)) senv = .exited 1 []) := by
  constructor
  · intro fenv hf
    unfold check_and_notify
    rw [hf]
  · intro status bd c hcode hne
    unfold check_and_notify
    rw [gpt_code_ne_200 status bd c hcode hne]

/-- Witness for C4: a transport failure and a body code of 500 both
exit 1 with nothing sent. -/
theorem fetch_failure_exits_one_witness :
    check_and_notify defaultConfig 5 3 FetchEnv.transportError (.status 200) = .exited 1 [] ∧
    check_and_notify defaultConfig 5 3
      (.response 200 (some { code := some 500, timings := some exampleTimings })) (.status 200) =
      .exited 1 [] :=
  ⟨(fetch_failure_exits_one defaultConfig 5 3 (.status 200)).1 FetchEnv.transportError rfl,
   (fetch_failure_exits_one defaultConfig 5 3 (.status 200)).2 200
      { code := some 500, timings := some exampleTimings } 500 rfl (by decide)⟩

/-- Claim C5: when a prayer matches but the POST fails (transport
error or4xx/5xx status), `send_notification` returns `false`, the
failure is recorded, and the run still exits 0. -/
theorem send_failure_still_exits_zero (cfg : Config) (h m : Nat) (fenv : FetchEnv)
    (senv : HttpPostResult) (ps : List (String × String)) (p : String × String)
    (hf : get_prayer_times fenv = some ps)
    (wf : ∀ q ∈ ps, (parseHHMM q.2).isSome)
    (hfind : ps.find? (fun q => timeMatches h m q.2) = some p)
    (hfail : senv = .transportError ∨ ∃ c, senv = .status c ∧ 400 ≤ c ∧ c < 600) :
    (send_notification cfg.ntfy_topic senv p.1 p.2).1 = false ∧
    check_and_notify cfg h m fenv senv =
      .exited 0 [⟨p.1, p.2, (send_notification cfg.ntfy_topic senv p.1 p.2).2, false⟩] := by
  have hsf := send_notification_fails cfg.ntfy_topic senv p.1 p.2 hfail
  refine ⟨hsf, ?_⟩
  rw [check_and_notify_eq_checkPrayers cfg h m fenv senv ps hf,
      checkPrayers_eq_find cfg.ntfy_topic h m senv ps wf, hfind]
  simp [hsf]

/-- Witness for C5: Fajr matches at 05:03 and the POST returns 500;
the run exits 0 with the failed send recorded. -/
theorem send_failure_still_exits_zero_witness :
    (send_notification defaultConfig.ntfy_topic (.status 500) ("Fajr") ("05:00")).1 = false ∧
    check_and_notify defaultConfig 5 3 exampleEnv (.status 500) =
      .exited 0 [⟨"Fajr", "05:00",
        (send_notification defaultConfig.ntfy_topic (.status 500) ("Fajr") ("05:00")).2, false⟩] :=
  send_failure_still_exits_zero defaultConfig 5 3 exampleEnv (.status 500) exampleSchedule
    ("Fajr", "05:00") rfl (by decide) (by decide)
    (Or.inr ⟨500, rfl, by decide, by decide⟩)

/-- Claim C6: the match condition only checks same-hour proximity: a
differing hour component never matches, so Isha at 23:58 does not
match at current time 00:02. -/
theorem hour_mismatch_no_match :
    (∀ (h m : Nat) (t : String) (ph pm : Int), parseHHMM t = some (ph, pm) →
      (h : Int) ≠ ph → timeMatches h m t = false) ∧
    (∀ (cfg : Config) (senv : HttpPostResult),
      check_and_notify cfg 0 2 lateIshaEnv senv = .exited 0 []) := by
  constructor
  · intro h m t ph pm hparse hne
    unfold timeMatches
    rw [hparse]
    exact decide_eq_false (fun hc => hne hc.1)
  · intro cfg senv
    rfl

/-- Witness for C6 at current time 00:02 against the time 23:58. -/
theorem hour_mismatch_no_match_witness :
    timeMatches 0 2 ("23:58") = false :=
  hour_mismatch_no_match.1 0 2 ("23:58") 23 58 (by decide) (by decide)

/-- Claim C7: when the transport succeeds, the HTTP status is a
success, and the body code is 200, `get_prayer_times` extracts exactly
the five named fields Fajr, Dhuhr, Asr, Maghrib, Isha from the nested
timings object, in that order and nothing else. -/
theorem fetch_success_extracts_five (status : Nat) (bd : ApiBody) (t : Timings)
    (f d a g i : String)
    (hs : ¬(400 ≤ status ∧ status < 600))
    (hcode : bd.code = some 200) (ht : bd.timings = some t)
    (hfa : t.fajr = some f) (hdu : t.dhuhr = some d) (has : t.asr = some a)
    (hma : t.maghrib = some g) (his : t.isha = some i) :
    get_prayer_times (.response status (some bd)) =
      some [("Fajr", f), ("Dhuhr", d), ("Asr", a), ("Maghrib", g), ("Isha", i)] := by
  have hs2 : raisesForStatus status = false := by
    unfold raisesForStatus
    exact decide_eq_false hs
  simp [get_prayer_times, hs2, hcode, ht, hfa, hdu, has, hma, his]

/-- Witness for C7 on a concrete 200 response. -/
theorem fetch_success_extracts_five_witness :
    get_prayer_times (.response 200 (some { code := some 200, timings := some exampleTimings })) =
      some [("Fajr", "05:00"), ("Dhuhr", "12:15"), ("Asr", "15:30"),
            ("Maghrib", "18:45"), ("Isha", "20:00")] :=
  fetch_success_extracts_five 200 { code := some 200, timings := some exampleTimings }
    exampleTimings ("05:00") ("12:15") ("15:30") ("18:45") ("20:00")
    (by decide) rfl rfl rfl rfl rfl rfl rfl

/-- Claim C8: a schedule entry whose time string is malformed makes
the scanning loop raise an unhandled parse error (no defensive guard):
the run crashes rather than exiting normally. -/
theorem malformed_time_crashes_run :
    (∀ (topic : String) (h m : Nat) (senv : HttpPostResult)
      (prayer_name prayer_time : String) (rest : List (String × String)),
      parseHHMM prayer_time = none →
      checkPrayers topic h m senv ((prayer_name, prayer_time) :: rest) =
        .parseFailure prayer_time) ∧
    (∀ (cfg : Config) (senv : HttpPostResult),
      check_and_notify cfg 5 3 malformedEnv senv = .parseFailure ("not-a-time")) := by
  constructor
  · intro topic h m senv prayer_name prayer_time rest hparse
    exact checkPrayers_cons_none topic h m senv prayer_name prayer_time rest hparse
  · intro cfg senv
    rfl

/-- Witness for C8 on a malformed Fajr entry. -/
theorem malformed_time_crashes_run_witness :
    checkPrayers ("t") 5 3 HttpPostResult.transportError [("Fajr", "not-a-time")] =
      .parseFailure ("not-a-time") :=
  malformed_time_crashes_run.1 ("t") 5 3 HttpPostResult.transportError ("Fajr") ("not-a-time")
    [] (by decide)

/-- Claim C9: the JSON body POSTed to the push endpoint contains
exactly the configured topic, a title combining the fixed glyph with
the prayer name, a message combining the name and time, priority 5,
and the fixed two-element tag list — both as a fact about
`send_notification` and for every notification an orchestrator run
actually sends. -/
theorem ntfy_body_fields :
    (∀ (topic : String) (senv : HttpPostResult) (prayer_name prayer_time : String),
      (send_notification topic senv prayer_name prayer_time).2 =
        { topic := topic
        , title := "🕌 " ++ prayer_name ++ " Time"
        , message := "It\x27s time for " ++ prayer_name ++ " prayer (" ++ prayer_time ++ ")"
        , priority := 5
        , tags := ["mosque", "pray"] }) ∧
    (∀ (cfg : Config) (h m : Nat) (fenv : FetchEnv) (senv : HttpPostResult) (r : SendRecord),
      r ∈ (check_and_notify cfg h m fenv senv).sent →
      r.body =
        { topic := cfg.ntfy_topic
        , title := "🕌 " ++ r.prayer ++ " Time"
        , message := "It\x27s time for " ++ r.prayer ++ " prayer (" ++ r.time ++ ")"
        , priority := 5
        , tags := ["mosque", "pray"] }) := by
  have hbody : ∀ (topic : String) (senv : HttpPostResult) (prayer_name prayer_time : String),
      (send_notification topic senv prayer_name prayer_time).2 =
        { topic := topic
        , title := "🕌 " ++ prayer_name ++ " Time"
        , message := "It\x27s time for " ++ prayer_name ++ " prayer (" ++ prayer_time ++ ")"
        , priority := 5
        , tags := ["mosque", "pray"] } := by
    intro topic senv prayer_name prayer_time
    cases senv with
    | transportError => rfl
    | status c =>
      by_cases hb : raisesForStatus c = true <;> simp [send_notification, hb]
  refine ⟨hbody, ?_⟩
  intro cfg h m fenv senv r hr
  cases hf : get_prayer_times fenv with
  | none =>
    unfold check_and_notify at hr
    rw [hf] at hr
    simp [RunOutcome.sent] at hr
  | some ps =>
    rw [check_and_notify_eq_checkPrayers cfg h m fenv senv ps hf] at hr
    have := (checkPrayers_sent_shape cfg.ntfy_topic h m senv ps r hr).1
    rw [this, hbody]

/-- Witness for C9: the record actually sent at 05:03 against the
example schedule carries the expected body. -/
theorem ntfy_body_fields_witness :
    (⟨"Fajr", "05:00",
      (send_notification defaultConfig.ntfy_topic (.status 200) ("Fajr") ("05:00")).2,
      true⟩ : SendRecord).body =
      { topic := defaultConfig.ntfy_topic
      , title := "🕌 " ++ "Fajr" ++ " Time"
      , message := "It\x27s time for " ++ "Fajr" ++ " prayer (" ++ "05:00" ++ ")"
      , priority := 5
      , tags := ["mosque", "pray"] } :=
  ntfy_body_fields.2 defaultConfig 5 3 exampleEnv (.status 200)
    ⟨"Fajr", "05:00",
      (send_notification defaultConfig.ntfy_topic (.status 200) ("Fajr") ("05:00")).2, true⟩
    (by decide)

/-- Claim C10: every schedule `get_prayer_times` returns holds exactly
the five keys Fajr, Dhuhr, Asr, Maghrib, Isha in that insertion order,
and consequently every notification the orchestrator sends names one
of those five prayers. -/
theorem schedule_keys_fixed_order (fenv : FetchEnv) (ps : List (String × String))
    (hf : get_prayer_times fenv = some ps) :
    ps.map Prod.fst = ["Fajr", "Dhuhr", "Asr", "Maghrib", "Isha"] ∧
    (∀ (cfg : Config) (h m : Nat) (senv : HttpPostResult) (r : SendRecord),
      r ∈ (check_and_notify cfg h m fenv senv).sent →
      r.prayer ∈ ["Fajr", "Dhuhr", "Asr", "Maghrib", "Isha"]) := by
  obtain ⟨f, d, a, g, i, rfl⟩ := get_prayer_times_shape fenv ps hf
  constructor
  · rfl
  · intro cfg h m senv r hr
    rw [check_and_notify_eq_checkPrayers cfg h m fenv senv _ hf] at hr
    have := checkPrayers_sent_prayer_mem cfg.ntfy_topic h m senv _ r hr
    simpa using this

/-- Witness for C10 on the example fetch. -/
theorem schedule_keys_fixed_order_witness :
    exampleSchedule.map Prod.fst = ["Fajr", "Dhuhr", "Asr", "Maghrib", "Isha"] :=
  (schedule_keys_fixed_order exampleEnv exampleSchedule rfl).1

end PrayerTimes
